import Mathlib

/-!
Shallow embedding of `src/rfsoc_nrssb/overlay.py` (the only source file of the
repository `himanshudutta11/rfsoc_nrssb`).

The module defines a single class `Overlay(pynq.Overlay)` whose constructor
`__init__(self, bitfile_name=None, init_rf_clks=True, **kwargs)`:
  1. computes a default bitstream path with `os.path.join` when
     `bitfile_name is None`;
  2. calls `super().__init__(bitfile_name, **kwargs)`, which loads the
     bitstream onto the FPGA;
  3. reads `board = os.environ[\x7bmissing\x7d]` for the key BOARD
     (a `KeyError` when the variable is unset);
  4. branches on the board identifier to pick `self.dac_tile`,
     `self.dac_block`, `self.adc_tile`, `self.adc_block` from the vendor
     driver collections, raising `RuntimeError` for an unknown identifier;
  5. when `init_rf_clks` is true, executes `clocks.set_custom_lmclks()`;
     the name `clocks` is bound nowhere in the module (the imports are
     `pynq.Overlay`, `os`, `xrfdc` and `xrfclk`), so Python raises a
     `NameError` at this line;
  6. computes `fs = 1920.00` when the board is ZCU216 and `fs = 3840.00`
     otherwise, then calls `self.configure_adcs(sample_freq=fs)` followed by
     `self.configure_dacs()`.

External collaborator calls (bitstream load, clock start-up, the two
configure calls) are recorded as events of a trace; Python exceptions become
the error side of an `Except`.
-/

namespace RfsocNrssb

/-- Join of two POSIX path components, as `os.path.join` computes it:
the second component wins when absolute; otherwise a single separator is
inserted unless the first component is empty or already ends in one. -/
def osPathJoin (a b : String) : String :=
  if b.startsWith ("/") then b
  else if a = "" || a.endsWith ("/") then a ++ b
  else a ++ ("/") ++ b

/-- Default bitstream path built by the constructor when `bitfile_name` is
`None`: `os.path.join(this_dir, 'rfsoc_nrssb', 'bitstream',
'rfsoc_nrssb.bit')`, where `this_dir = os.path.dirname(__file__)`. -/
def defaultBitfileName (thisDir : String) : String :=
  osPathJoin (osPathJoin (osPathJoin thisDir ("rfsoc_nrssb")) ("bitstream"))
    ("rfsoc_nrssb.bit")

/-- The bitstream path actually passed to `super().__init__`: the default
path when the caller passed `None`, the caller-supplied name otherwise. -/
def resolveBitfile (bitfileName : Option String) (thisDir : String) : String :=
  match bitfileName with
  | none => defaultBitfileName thisDir
  | some b => b

/-- Externally visible hardware/collaborator calls made by the constructor. -/
inductive Event where
  /-- `super().__init__(bitfile_name, **kwargs)`: the bitstream is loaded. -/
  | loadBitstream (path : String)
  /-- `clocks.set_custom_lmclks()` (never actually reached, see `PyError.nameError`). -/
  | setLmclks
  /-- `self.configure_adcs(sample_freq=fs)`. -/
  | configureAdcs (sampleFreq : ℚ)
  /-- `self.configure_dacs()`. -/
  | configureDacs
deriving DecidableEq, Repr

/-- Python exceptions the constructor can raise. -/
inductive PyError where
  /-- `os.environ[key]` with the key unset. -/
  | keyError (key : String)
  /-- `raise RuntimeError(msg)`. -/
  | runtimeError (msg : String)
  /-- Reference to an unbound name. -/
  | nameError (name : String)
deriving DecidableEq, Repr

/-- The four converter indices assigned by a branch of the board dispatch:
`self.dac_tile = self.rfdc.dac_tiles[dacTile]`,
`self.dac_block = self.dac_tile.blocks[dacBlock]`, and likewise for the ADC. -/
structure TileSel where
  dacTile : Nat
  dacBlock : Nat
  adcTile : Nat
  adcBlock : Nat
deriving DecidableEq, Repr

/-- Outcome of one run of the constructor: the trace of collaborator calls,
the tile/block selection assigned to `self` (if a branch was taken), and
either normal completion or the exception that propagated. -/
structure RunResult where
  trace : List Event
  selected : Option TileSel
  result : Except PyError Unit
deriving Repr

/-- Source lines following the tile/block selection: the optional LMX clock
start-up, the sample-frequency choice, and the two configure calls.
`clocks.set_custom_lmclks()` raises `NameError` because `clocks` is not a
bound name in the module, so when `init_rf_clks` is true the constructor
aborts here with the tiles already assigned and nothing further invoked. -/
def afterSelect (board : String) (sel : TileSel) (initRfClks : Bool)
    (trace : List Event) : RunResult :=
  if initRfClks then
    ⟨trace, some sel, .error (.nameError ("clocks"))⟩
  else
    let fs : ℚ := if board = "ZCU216" then 1920 else 3840
    ⟨trace ++ [Event.configureAdcs fs, Event.configureDacs], some sel, .ok ()⟩

/-- Model of `Overlay.__init__`.  `boardEnv` is the value of the BOARD
environment variable (`none` when unset), `bitfileName` and `initRfClks` are
the constructor arguments, `thisDir` is `os.path.dirname(__file__)`. -/
def overlayInit (boardEnv : Option String) (bitfileName : Option String)
    (initRfClks : Bool) (thisDir : String) : RunResult :=
  let bitfile := resolveBitfile bitfileName thisDir
  let trace0 := [Event.loadBitstream bitfile]
  match boardEnv with
  | none => ⟨trace0, none, .error (.keyError ("BOARD"))⟩
  | some board =>
    if board = "RFSoC4x2" then
      afterSelect board ⟨2, 0, 2, 1⟩ initRfClks trace0
    else if board = "ZCU208" ∨ board = "ZCU216" then
      afterSelect board ⟨2, 0, 1, 0⟩ initRfClks trace0
    else if board = "RFSoC2x2" then
      afterSelect board ⟨1, 0, 2, 0⟩ initRfClks trace0
    else if board = "ZCU111" then
      afterSelect board ⟨1, 2, 0, 0⟩ initRfClks trace0
    else
      ⟨trace0, none, .error (.runtimeError ("Unknown error occurred."))⟩

/-- The five board identifiers recognized by the dispatch. -/
def knownBoard (b : String) : Bool :=
  (b == "RFSoC4x2") || (b == "ZCU208") || (b == "ZCU216") ||
    (b == "RFSoC2x2") || (b == "ZCU111")

/-- Tile/block selection of the dispatch as a partial function of the board
identifier (the branches of `overlayInit` in order). -/
def boardSel (b : String) : Option TileSel :=
  if b = "RFSoC4x2" then some ⟨2, 0, 2, 1⟩
  else if b = "ZCU208" ∨ b = "ZCU216" then some ⟨2, 0, 1, 0⟩
  else if b = "RFSoC2x2" then some ⟨1, 0, 2, 0⟩
  else if b = "ZCU111" then some ⟨1, 2, 0, 0⟩
  else none

/-- The sample frequency, in MHz, computed at the end of the constructor. -/
def fsOf (b : String) : ℚ := if b = "ZCU216" then 1920 else 3840

lemma boardSel_isSome_iff (b : String) :
    (boardSel b).isSome = true ↔ knownBoard b = true := by
  unfold boardSel knownBoard
  split_ifs with h1 h2 h3 h4 <;>
    simp_all [beq_iff_eq]

/-- Characterization of a constructor run with the BOARD variable set. -/
lemma overlayInit_some_eq (b : String) (bf : Option String) (i : Bool)
    (d : String) :
    overlayInit (some b) bf i d =
      match boardSel b with
      | none =>
          ⟨[Event.loadBitstream (resolveBitfile bf d)], none,
            .error (.runtimeError ("Unknown error occurred."))⟩
      | some sel =>
          if i then
            ⟨[Event.loadBitstream (resolveBitfile bf d)], some sel,
              .error (.nameError ("clocks"))⟩
          else
            ⟨[Event.loadBitstream (resolveBitfile bf d),
                Event.configureAdcs (fsOf b), Event.configureDacs],
              some sel, .ok ()⟩ := by
  cases i <;>
    simp only [overlayInit, afterSelect, boardSel, fsOf] <;>
    split_ifs <;>
    simp_all

lemma selected_eq_boardSel (b : String) (bf : Option String) (i : Bool)
    (d : String) : (overlayInit (some b) bf i d).selected = boardSel b := by
  rw [overlayInit_some_eq]
  cases boardSel b <;> cases i <;> rfl

lemma configureAdcs_mem_freq (b : String) (bf : Option String) (i : Bool)
    (d : String) (f : ℚ)
    (hmem : Event.configureAdcs f ∈ (overlayInit (some b) bf i d).trace) :
    f = fsOf b := by
  rw [overlayInit_some_eq] at hmem
  cases hsel : boardSel b <;> rw [hsel] at hmem <;> cases i <;>
    simp_all

lemma trace_head (boardEnv bf : Option String) (i : Bool) (d : String) :
    (overlayInit boardEnv bf i d).trace.head? =
      some (Event.loadBitstream (resolveBitfile bf d)) := by
  cases boardEnv with
  | none => rfl
  | some b =>
      rw [overlayInit_some_eq]
      cases boardSel b <;> cases i <;> rfl

lemma unknown_board_run (b : String) (bf : Option String) (i : Bool)
    (d : String) (hb : knownBoard b = false) :
    overlayInit (some b) bf i d =
      ⟨[Event.loadBitstream (resolveBitfile bf d)], none,
        .error (.runtimeError ("Unknown error occurred."))⟩ := by
  rw [overlayInit_some_eq]
  cases hsel : boardSel b with
  | none => rfl
  | some sel =>
      have : (boardSel b).isSome = true := by rw [hsel]; rfl
      rw [boardSel_isSome_iff] at this
      rw [this] at hb
      exact absurd hb (by simp)

lemma known_board_result (b : String) (bf : Option String) (i : Bool)
    (d : String) (hb : knownBoard b = true) :
    (overlayInit (some b) bf i d).result =
      (if i then .error (.nameError ("clocks")) else .ok ()) := by
  rw [overlayInit_some_eq]
  cases hsel : boardSel b with
  | none =>
      have : (boardSel b).isSome = true := (boardSel_isSome_iff b).mpr hb
      rw [hsel] at this
      exact absurd this (by simp)
  | some sel => cases i <;> rfl

/-- C1: the claim says construction with default arguments (in particular
init_rf_clks=True) completes without raising, for each of the five known
boards.  The code violates this: for every one of the five boards the
default-argument run aborts with a NameError on the unbound name `clocks`
at the clock start-up line, so construction never completes. -/
theorem c1_default_arguments_raise_name_error :
    ((overlayInit (some ("RFSoC4x2")) none true ("/pkg")).result
        = .error (.nameError ("clocks"))) ∧
    ((overlayInit (some ("ZCU208")) none true ("/pkg")).result
        = .error (.nameError ("clocks"))) ∧
    ((overlayInit (some ("ZCU216")) none true ("/pkg")).result
        = .error (.nameError ("clocks"))) ∧
    ((overlayInit (some ("RFSoC2x2")) none true ("/pkg")).result
        = .error (.nameError ("clocks"))) ∧
    ((overlayInit (some ("ZCU111")) none true ("/pkg")).result
        = .error (.nameError ("clocks"))) :=
  ⟨rfl, rfl, rfl, rfl, rfl⟩

/-- C2: for every recognized board identifier the constructor selects
exactly the documented tile/block indices: RFSoC4x2 uses DAC 2/0 and
ADC 2/1; ZCU208 and ZCU216 use DAC 2/0 and ADC 1/0; RFSoC2x2 uses
DAC 1/0 and ADC 2/0; ZCU111 uses DAC 1/2 and ADC 0/0 — for every
bitfile argument, clock flag and module directory. -/
theorem c2_board_mapping_table (bf : Option String) (i : Bool) (d : String) :
    (overlayInit (some ("RFSoC4x2")) bf i d).selected = some ⟨2, 0, 2, 1⟩ ∧
    (overlayInit (some ("ZCU208")) bf i d).selected = some ⟨2, 0, 1, 0⟩ ∧
    (overlayInit (some ("ZCU216")) bf i d).selected = some ⟨2, 0, 1, 0⟩ ∧
    (overlayInit (some ("RFSoC2x2")) bf i d).selected = some ⟨1, 0, 2, 0⟩ ∧
    (overlayInit (some ("ZCU111")) bf i d).selected = some ⟨1, 2, 0, 0⟩ := by
  refine ⟨?_, ?_, ?_, ?_, ?_⟩ <;> rw [selected_eq_boardSel] <;> rfl

/-- C3: whenever the ADC configuration collaborator is invoked with a
sample frequency, that frequency is 1920.00 when the board is ZCU216 and
3840.00 otherwise (in particular for the four other recognized boards). -/
theorem c3_adc_sample_freq (b : String) (bf : Option String) (i : Bool)
    (d : String) (f : ℚ)
    (hmem : Event.configureAdcs f ∈ (overlayInit (some b) bf i d).trace) :
    f = if b = "ZCU216" then (1920 : ℚ) else 3840 :=
  configureAdcs_mem_freq b bf i d f hmem

/-- Witness for C3 at board ZCU216 with init_rf_clks=False. -/
theorem c3_adc_sample_freq_witness :
    Event.configureAdcs 1920 ∈
        (overlayInit (some ("ZCU216")) none false ("/pkg")).trace ∧
    (1920 : ℚ) = if ("ZCU216" : String) = "ZCU216" then (1920 : ℚ) else 3840 :=
  ⟨by decide, c3_adc_sample_freq ("ZCU216") none false ("/pkg") 1920 (by decide)⟩

/-- C4 counterexample: the claim says that for an unrecognized board the
failure occurs before any hardware calls are made, but at a concrete
unrecognized board the run that fails with the unknown-board error has
already loaded the bitstream (the superclass constructor runs before the
board check), so the trace of hardware calls at failure is not empty. -/
theorem c4_counterexample :
    ((overlayInit (some ("NotARealBoard")) none true ("/pkg")).result
        = .error (.runtimeError ("Unknown error occurred."))) ∧
    ((overlayInit (some ("NotARealBoard")) none true ("/pkg")).trace
        = [Event.loadBitstream (defaultBitfileName ("/pkg"))]) ∧
    (overlayInit (some ("NotARealBoard")) none true ("/pkg")).trace ≠ [] :=
  ⟨rfl, rfl, by decide⟩

/-- C4 amended: for any board identifier outside the five recognized
values, construction fails with the unknown-board error before the clock
start-up and before either configuration collaborator is invoked — the
only hardware call on the trace is the bitstream load performed by the
superclass constructor. -/
theorem c4_unknown_board_fails_before_config (b : String) (bf : Option String)
    (i : Bool) (d : String) (hb : knownBoard b = false) :
    ((overlayInit (some b) bf i d).result
        = .error (.runtimeError ("Unknown error occurred."))) ∧
    (overlayInit (some b) bf i d).trace
        = [Event.loadBitstream (resolveBitfile bf d)] := by
  rw [unknown_board_run b bf i d hb]
  exact ⟨rfl, rfl⟩

/-- Witness for the amended C4 at a concrete unrecognized board. -/
theorem c4_unknown_board_fails_before_config_witness :
    knownBoard ("SomeOtherBoard") = false ∧
    (((overlayInit (some ("SomeOtherBoard")) none true ("/pkg")).result
        = .error (.runtimeError ("Unknown error occurred."))) ∧
      (overlayInit (some ("SomeOtherBoard")) none true ("/pkg")).trace
        = [Event.loadBitstream (resolveBitfile none ("/pkg"))]) :=
  ⟨by decide,
    c4_unknown_board_fails_before_config ("SomeOtherBoard") none true ("/pkg")
      (by decide)⟩

/-- C5: construction raises the unrecognized-board RuntimeError exactly
when the BOARD value is outside the five recognized identifiers, and when
it does, neither configure_adcs nor configure_dacs has been invoked. -/
theorem c5_unknown_board_error_iff (b : String) (bf : Option String)
    (i : Bool) (d : String) :
    (((overlayInit (some b) bf i d).result
        = .error (.runtimeError ("Unknown error occurred."))) ↔
      knownBoard b = false) ∧
    (knownBoard b = false →
      (∀ f, Event.configureAdcs f ∉ (overlayInit (some b) bf i d).trace) ∧
        Event.configureDacs ∉ (overlayInit (some b) bf i d).trace) := by
  constructor
  · constructor
    · intro h
      by_contra hb
      rw [Bool.not_eq_false] at hb
      rw [known_board_result b bf i d hb] at h
      cases i <;> simp_all
    · intro hb
      rw [unknown_board_run b bf i d hb]
  · intro hb
    rw [unknown_board_run b bf i d hb]
    refine ⟨fun f hf => ?_, fun hf => ?_⟩ <;> simp_all


/-- Witness for C5 at a concrete unrecognized board, discharging the
inner hypothesis. -/
theorem c5_unknown_board_error_iff_witness :
    ((overlayInit (some ("ZCU999")) none true ("/pkg")).result
        = .error (.runtimeError ("Unknown error occurred."))) ∧
    Event.configureDacs ∉ (overlayInit (some ("ZCU999")) none true ("/pkg")).trace :=
  ⟨(c5_unknown_board_error_iff ("ZCU999") none true ("/pkg")).1.mpr (by decide),
    ((c5_unknown_board_error_iff ("ZCU999") none true ("/pkg")).2 (by decide)).2⟩

/-- C6: the claim says that on a recognized board exactly two collaborator
operations are invoked after the board lookup (configure_adcs with the
sample frequency, then configure_dacs).  The code violates this for the
default init_rf_clks=True: the unbound name `clocks` raises a NameError
before either configure call, so the trace holds the bitstream load only;
the two calls happen (in the documented order) only when
init_rf_clks=False. -/
theorem c6_default_run_skips_both_config_calls :
    ((overlayInit (some ("RFSoC4x2")) none true ("/pkg")).trace
        = [Event.loadBitstream (defaultBitfileName ("/pkg"))]) ∧
    ((overlayInit (some ("RFSoC4x2")) none true ("/pkg")).result
        = .error (.nameError ("clocks"))) ∧
    (overlayInit (some ("RFSoC4x2")) none false ("/pkg")).trace
        = [Event.loadBitstream (defaultBitfileName ("/pkg")),
            Event.configureAdcs 3840, Event.configureDacs] :=
  ⟨rfl, rfl, rfl⟩

/-- C7: the board lookup is a deterministic function of the BOARD value
alone — two runs reading the same BOARD value select the same tile/block
indices, and any two ADC sample frequencies they pass are equal, whatever
the bitfile arguments, clock flags and module directories. -/
theorem c7_lookup_deterministic (b : String) (bf1 bf2 : Option String)
    (i1 i2 : Bool) (d1 d2 : String) :
    ((overlayInit (some b) bf1 i1 d1).selected
        = (overlayInit (some b) bf2 i2 d2).selected) ∧
    ∀ f1 f2, Event.configureAdcs f1 ∈ (overlayInit (some b) bf1 i1 d1).trace →
      Event.configureAdcs f2 ∈ (overlayInit (some b) bf2 i2 d2).trace →
      f1 = f2 := by
  refine ⟨?_, fun f1 f2 h1 h2 => ?_⟩
  · rw [selected_eq_boardSel, selected_eq_boardSel]
  · rw [configureAdcs_mem_freq b bf1 i1 d1 f1 h1,
      configureAdcs_mem_freq b bf2 i2 d2 f2 h2]

/-- Witness for C7: two ZCU216 runs with different bitfile names, flags
and directories agree on the selection and on the frequency passed. -/
theorem c7_lookup_deterministic_witness :
    ((overlayInit (some ("ZCU216")) none false ("/a")).selected
        = (overlayInit (some ("ZCU216")) (some ("x.bit")) false ("/b")).selected) ∧
    (1920 : ℚ) = 1920 :=
  ⟨(c7_lookup_deterministic ("ZCU216") none (some ("x.bit")) false false
      ("/a") ("/b")).1,
    (c7_lookup_deterministic ("ZCU216") none (some ("x.bit")) false false
      ("/a") ("/b")).2 1920 1920 (by decide) (by decide)⟩

/-- C8: when the BOARD environment variable is unset, construction fails
with a KeyError for the key BOARD; no board branch is taken (no selection
is made) and neither configuration collaborator is invoked, but the
bitstream has already been loaded by the superclass constructor. -/
theorem c8_missing_board_env (bf : Option String) (i : Bool) (d : String) :
    overlayInit none bf i d =
      ⟨[Event.loadBitstream (resolveBitfile bf d)], none,
        .error (.keyError ("BOARD"))⟩ :=
  rfl

/-- C9: the claim says that with init_rf_clks=False the clock start-up is
skipped while the lookup and the two configure calls still run exactly as
for init_rf_clks=True.  The code violates the comparison: with False the
two configure calls run and construction succeeds, but with True the
unbound name `clocks` raises a NameError and the configure calls never
happen, so the two modes do not perform the same calls. -/
theorem c9_clock_flag_changes_config_calls :
    ((overlayInit (some ("RFSoC4x2")) none false ("/pkg")).trace
        = [Event.loadBitstream (defaultBitfileName ("/pkg")),
            Event.configureAdcs 3840, Event.configureDacs]) ∧
    ((overlayInit (some ("RFSoC4x2")) none false ("/pkg")).result = .ok ()) ∧
    ((overlayInit (some ("RFSoC4x2")) none true ("/pkg")).trace
        = [Event.loadBitstream (defaultBitfileName ("/pkg"))]) ∧
    ((overlayInit (some ("RFSoC4x2")) none true ("/pkg")).result
        = .error (.nameError ("clocks"))) :=
  ⟨rfl, rfl, rfl, rfl⟩

/-- C10: with bitfile_name=None the path handed to the superclass
constructor is the join of the module directory with rfsoc_nrssb,
bitstream and rfsoc_nrssb.bit, and an explicitly supplied bitfile_name is
passed through unchanged — for any BOARD value and clock flag. -/
theorem c10_bitfile_resolution (boardEnv : Option String) (i : Bool)
    (d p : String) :
    ((overlayInit boardEnv none i d).trace.head?
        = some (Event.loadBitstream (osPathJoin (osPathJoin (osPathJoin d
            ("rfsoc_nrssb")) ("bitstream")) ("rfsoc_nrssb.bit")))) ∧
    (overlayInit boardEnv (some p) i d).trace.head?
        = some (Event.loadBitstream p) :=
  ⟨trace_head boardEnv none i d, trace_head boardEnv (some p) i d⟩

end RfsocNrssb
